import Mathlib

/-!
Shallow embedding of the browser client in `src/static/js/main.js`
(class `ARQV30App`), covering session handling, form collection and
validation, the analysis request, file upload bookkeeping, PDF download
guard, file-size formatting and the HTML fragment builders for the
marketing and insights sections.

Modelling conventions:
- JavaScript runtime values flowing through the form/upload code are
  modelled by `JSValue` (null, undefined, booleans, finite numbers as
  exact rationals, NaN, signed infinity, strings).  JS numbers are
  modelled as exact rationals; double rounding is not modelled (no claim
  depends on it).
- DOM reads (`formData.get(...)`) yield `Option String`: `none` for an
  absent field (JS `null`), `some s` for a present field.
- Effects are made explicit: functions return the request they would
  issue (if any) and the list of notifications they would show, and the
  mutable fields of the class (`sessionId`, `uploadedFiles`,
  `currentAnalysis`, results visibility, the form) are an `AppState`
  record threaded through explicitly.
- Nondeterministic inputs (`Date.now()`, `Math.random().toString(36).substr(2, 9)`,
  server responses) are explicit parameters.
- HTML template whitespace/indentation is not reproduced; tags,
  attributes, classes, text content and their order are preserved.
-/

/-- JavaScript values, as needed by the client code under study. -/
inductive JSValue where
  | null
  | undef
  | bool (b : Bool)
  | num (q : ℚ)
  | nan
  | inf (neg : Bool)
  | str (s : String)
deriving DecidableEq

/-- JS truthiness: `false`, `0`, `''`, `null`, `undefined` and `NaN` are falsy. -/
def jsTruthy : JSValue → Bool
  | .null => false
  | .undef => false
  | .bool b => b
  | .num q => decide (q ≠ 0)
  | .nan => false
  | .inf _ => true
  | .str s => decide (s ≠ "")

/-- JS strict equality `===`: `NaN` is not equal to anything (itself included);
otherwise values are equal when of the same kind with the same content. -/
def jsStrictEq (a b : JSValue) : Bool :=
  match a, b with
  | .nan, _ => false
  | _, .nan => false
  | a, b => decide (a = b)

/-- JS `a || b`: `a` when truthy, else `b`. -/
def jsOr (a b : JSValue) : JSValue :=
  if jsTruthy a then a else b

/-! ### `parseFloat`

Embedding of the JS built-in `parseFloat`: skip leading (ASCII)
whitespace, then read the longest prefix that is a signed decimal
literal (`[+-]? (digits [. digits?] | . digits) ([eE][+-]?digits)?`) or
`Infinity`; if no such prefix exists the result is `NaN`.  The numeric
value is the exact rational value of the literal. -/

def isJsWhitespace (c : Char) : Bool :=
  c = ' ' || c = '\t' || c = '\n' || c = '\r' || c = '\x0b' || c = '\x0c'

/-- Split a character list into its longest digit prefix and the rest. -/
def takeDigits : List Char → List Char × List Char
  | [] => ([], [])
  | c :: cs =>
    if c.isDigit then
      let p := takeDigits cs
      (c :: p.1, p.2)
    else ([], c :: cs)

/-- Value of a decimal digit string. -/
def digitsToNat (ds : List Char) : Nat :=
  ds.foldl (fun acc c => 10 * acc + (c.toNat - 48)) 0

/-- Parse an optionally signed digit run (the payload of an exponent). -/
def parseSignedDigits (cs : List Char) : ℤ :=
  match cs with
  | '-' :: rest =>
    let p := takeDigits rest
    if p.1 = [] then 0 else -(digitsToNat p.1 : ℤ)
  | '+' :: rest =>
    let p := takeDigits rest
    if p.1 = [] then 0 else (digitsToNat p.1 : ℤ)
  | rest =>
    let p := takeDigits rest
    if p.1 = [] then 0 else (digitsToNat p.1 : ℤ)

/-- Exponent part of a float literal (`0` when absent). -/
def parseExpFrom : List Char → ℤ
  | 'e' :: rest => parseSignedDigits rest
  | 'E' :: rest => parseSignedDigits rest
  | _ => 0

/-- The JS `parseFloat` built-in (exact-rational semantics for the value). -/
def jsParseFloat (s : String) : JSValue :=
  let cs := s.data.dropWhile isJsWhitespace
  let signSplit : Bool × List Char :=
    match cs with
    | '-' :: rest => (true, rest)
    | '+' :: rest => (false, rest)
    | rest => (false, rest)
  let neg := signSplit.1
  let cs1 := signSplit.2
  if cs1.take 8 = "Infinity".data then JSValue.inf neg
  else
    let ipSplit := takeDigits cs1
    let ip := ipSplit.1
    let fpSplit : List Char × List Char :=
      match ipSplit.2 with
      | '.' :: rest => takeDigits rest
      | other => ([], other)
    let fp := fpSplit.1
    if ip = [] ∧ fp = [] then JSValue.nan
    else
      let e := parseExpFrom fpSplit.2
      let mantissa : ℚ := (digitsToNat ip : ℚ) + (digitsToNat fp : ℚ) / (10 : ℚ) ^ fp.length
      let v : ℚ := if 0 ≤ e then mantissa * (10 : ℚ) ^ e.toNat else mantissa / (10 : ℚ) ^ (-e).toNat
      JSValue.num (if neg then -v else v)

/-! ### Form collection and validation -/

/-- The named fields of `analysisForm`, as read by `formData.get`:
`none` models an absent field, `some s` a field holding the string `s`. -/
structure FormState where
  segmento : Option String
  produto : Option String
  preco : Option String
  publico : Option String
  objetivo_receita : Option String
  orcamento_marketing : Option String
  prazo_lancamento : Option String
  concorrentes : Option String
  query : Option String
  dados_adicionais : Option String
deriving DecidableEq

/-- A text field as stored in the `data` object: `formData.get(name)`. -/
def optStr : Option String → JSValue
  | none => JSValue.null
  | some s => JSValue.str s

/-- A numeric field as stored in the `data` object:
`formData.get(name) ? parseFloat(formData.get(name)) : null`. -/
def numField : Option String → JSValue
  | none => JSValue.null
  | some s => if s = "" then JSValue.null else jsParseFloat s

/-- The deletion test of `collectFormData`'s cleanup loop:
`data[key] === '' || data[key] === null`. -/
def isEmptyValue : JSValue → Bool
  | .str s => decide (s = "")
  | .null => true
  | _ => false

/-- `collectFormData`: build the `data` object (an ordered key/value
record), then delete every key whose value is `''` or `null`. -/
def collectFormData (sessionId : String) (form : FormState) : List (String × JSValue) :=
  let data : List (String × JSValue) :=
    [("session_id", JSValue.str sessionId),
     ("segmento", optStr form.segmento),
     ("produto", optStr form.produto),
     ("preco", numField form.preco),
     ("publico", optStr form.publico),
     ("objetivo_receita", numField form.objetivo_receita),
     ("orcamento_marketing", numField form.orcamento_marketing),
     ("prazo_lancamento", optStr form.prazo_lancamento),
     ("concorrentes", optStr form.concorrentes),
     ("query", optStr form.query),
     ("dados_adicionais", optStr form.dados_adicionais)]
  data.filter (fun kv => !(isEmptyValue kv.2))

/-- Property read on the collected record; a missing key is `undefined`. -/
def getProp (data : List (String × JSValue)) (k : String) : JSValue :=
  match data.lookup k with
  | some v => v
  | none => JSValue.undef

inductive NotificationKind where
  | error
  | success
  | info
deriving DecidableEq

/-- A notification banner as produced by `showNotification`. -/
structure Notification where
  kind : NotificationKind
  message : String
deriving DecidableEq

def validationErrorMessage : String := "O campo \"Segmento de Mercado\" é obrigatório."

/-- `validateFormData`: the market segment is the single hard requirement
(`!data.segmento` aborts with a user-facing error). -/
def validateFormData (data : List (String × JSValue)) : Bool × List Notification :=
  if jsTruthy (getProp data "segmento") then (true, [])
  else (false, [⟨NotificationKind.error, validationErrorMessage⟩])

/-- The POST request issued by `performAnalysis` (body is the JSON-encoded
`data` record). -/
structure AnalyzeRequest where
  url : String
  method : String
  body : List (String × JSValue)
deriving DecidableEq

def performAnalysisRequest (data : List (String × JSValue)) : AnalyzeRequest :=
  { url := "/api/analyze", method := "POST", body := data }

/-- `handleFormSubmit`: collect the form, validate; on failure no request is
issued, on success `performAnalysis` POSTs the data. -/
def handleFormSubmit (sessionId : String) (form : FormState) :
    Option AnalyzeRequest × List Notification :=
  let data := collectFormData sessionId form
  let v := validateFormData data
  if v.1 then (some (performAnalysisRequest data), v.2) else (none, v.2)

/-! ### File upload -/

/-- Name and byte size of a file picked by the user. -/
structure FileInfo where
  name : String
  size : Nat
deriving DecidableEq

/-- An entry of `this.uploadedFiles` (`type` is the server-reported
content type, possibly absent; `id` is the server id or a timestamp). -/
structure UploadedFile where
  name : String
  size : Nat
  type : Option String
  id : JSValue
deriving DecidableEq

/-- Outcome of the `/api/upload_attachment` fetch as seen by `uploadFile`:
a parsed JSON body, an unparsable body, or a thrown network error. -/
inductive UploadResponse where
  | json (success : JSValue) (content_type : Option String) (attachment_id : JSValue)
      (error : Option String)
  | parseFailure (message : String)
  | networkFailure (message : String)
deriving DecidableEq

def uploadErrorText (fileName msg : String) : String :=
  "Erro ao processar \"" ++ fileName ++ "\": " ++ msg

def uploadDefaultError : String := "Erro ao processar arquivo"

/-- `uploadFile`: on a truthy `success` flag, append a descriptor (id
falling back to `Date.now()` when the server omits one) and show a
success notification; on a falsy flag, unparsable body or thrown error,
show an error notification naming the file. -/
def uploadFile (f : FileInfo) (resp : UploadResponse) (now : ℚ)
    (files : List UploadedFile) : List UploadedFile × List Notification :=
  match resp with
  | .json success ct aid err =>
    if jsTruthy success then
      (files ++ [{ name := f.name, size := f.size, type := ct, id := jsOr aid (JSValue.num now) }],
       [⟨NotificationKind.success, "Arquivo \"" ++ f.name ++ "\" processado com sucesso!"⟩])
    else
      (files,
       [⟨NotificationKind.error,
         uploadErrorText f.name
           (match err with
            | some e => if e = "" then uploadDefaultError else e
            | none => uploadDefaultError)⟩])
  | .parseFailure msg => (files, [⟨NotificationKind.error, uploadErrorText f.name msg⟩])
  | .networkFailure msg => (files, [⟨NotificationKind.error, uploadErrorText f.name msg⟩])

/-- `removeFile`: keep the descriptors whose id differs (`!==`) from the
given one; no server call is made. -/
def removeFile (fileId : JSValue) (files : List UploadedFile) : List UploadedFile :=
  files.filter (fun file => !(jsStrictEq file.id fileId))

/-! ### `formatFileSize`

`formatFileSize(bytes)` computes `i = Math.floor(Math.log(bytes)/Math.log(1024))`
and renders `parseFloat((bytes / Math.pow(1024, i)).toFixed(2)) + ' ' + sizes[i]`.
The embedding uses exact-real semantics for `Math.log`:
`⌊log bytes / log 1024⌋` is the number of times 1024 divides into `bytes`,
computed by `floorLog` (fuelled repeated division, so that it reduces in the
kernel).  `toFixed(2)` rounds half-up to hundredths:
`⌊bytes/1024^i * 100 + 1/2⌋ = (200*bytes + 1024^i) / (2*1024^i)` in integer
division, and `fixedToString` renders that many hundredths the way
`parseFloat(x.toFixed(2)).toString()` would (trailing zeros dropped). -/

def floorLogAux (k : Nat) : Nat → Nat → Nat
  | _, 0 => 0
  | n, fuel + 1 => if n < k then 0 else floorLogAux k (n / k) fuel + 1

/-- Floor of the base-`k` logarithm (for `k ≥ 2`, `n ≥ 1`). -/
def floorLog (k n : Nat) : Nat := floorLogAux k n n

/-- Render a number of hundredths as a decimal numeral without trailing
fraction zeros. -/
def fixedToString (hundredths : Nat) : String :=
  let ip := hundredths / 100
  let fr := hundredths % 100
  toString ip ++
    (if fr = 0 then ""
     else if fr % 10 = 0 then "." ++ toString (fr / 10)
     else (if fr < 10 then ".0" else ".") ++ toString fr)

def formatFileSize (bytes : Nat) : String :=
  if bytes = 0 then "0 Bytes"
  else
    let i := floorLog 1024 bytes
    let hundredths := (200 * bytes + 1024 ^ i) / (2 * 1024 ^ i)
    fixedToString hundredths ++ " " ++ (["Bytes", "KB", "MB", "GB"].getD i "undefined")

/-! ### Session ids and app state -/

/-- Decimal rendering of a natural number (JS integer-to-string). -/
def natDecimal (n : Nat) : String :=
  if n = 0 then "0" else String.mk ((Nat.digits 10 n).reverse.map Nat.digitChar)

/-- `generateSessionId`: `'session_' + Date.now() + '_' + suffix` where
`suffix` is the random base-36 tail `Math.random().toString(36).substr(2, 9)`;
the timestamp and the suffix are explicit parameters. -/
def generateSessionId (ts : Nat) (rand : String) : String :=
  "session_" ++ natDecimal ts ++ "_" ++ rand

/-- The marketing-keywords section of an analysis payload. -/
structure MarketingStrategy where
  palavras_primarias : Option (List String)
  palavras_secundarias : Option (List String)
deriving DecidableEq

/-- An analysis payload: independently optional named sections.  Only the
sections whose rendering is modelled in detail are given structure. -/
structure AnalysisResult where
  avatar_ultra_detalhado : Option JSValue := none
  escopo : Option JSValue := none
  analise_concorrencia_detalhada : Option JSValue := none
  estrategia_palavras_chave : Option MarketingStrategy := none
  metricas_performance_detalhadas : Option JSValue := none
  projecoes_cenarios : Option JSValue := none
  plano_acao_detalhado : Option JSValue := none
  insights_exclusivos : Option (List String) := none
deriving DecidableEq

/-- The mutable fields of the `ARQV30App` instance, plus the visibility of
the results block and the form contents. -/
structure AppState where
  sessionId : String
  uploadedFiles : List UploadedFile
  currentAnalysis : Option AnalysisResult
  resultsVisible : Bool
  form : FormState
deriving DecidableEq

/-- The form after `form.reset()`: every field cleared. -/
def emptyForm : FormState :=
  { segmento := none, produto := none, preco := none, publico := none,
    objetivo_receita := none, orcamento_marketing := none, prazo_lancamento := none,
    concorrentes := none, query := none, dados_adicionais := none }

/-- `startNewAnalysis`: reset the form, clear the uploads, hide the results,
rotate the session id and drop the stored analysis. -/
def startNewAnalysis (ts : Nat) (rand : String) (s : AppState) : AppState :=
  { s with
    form := emptyForm,
    uploadedFiles := [],
    resultsVisible := false,
    sessionId := generateSessionId ts rand,
    currentAnalysis := none }

/-! ### PDF download -/

/-- The POST issued by `downloadPDF` (body is the stored analysis, JSON-encoded). -/
structure PdfRequest where
  url : String
  body : AnalysisResult
deriving DecidableEq

def pdfMissingAnalysisError : String := "Nenhuma análise disponível para download."

/-- `downloadPDF`: without a stored analysis, show an error and abort;
otherwise POST the stored analysis to `/api/generate_pdf`. -/
def downloadPDF (currentAnalysis : Option AnalysisResult) :
    Option PdfRequest × List Notification :=
  match currentAnalysis with
  | none => (none, [⟨NotificationKind.error, pdfMissingAnalysisError⟩])
  | some a => (some { url := "/api/generate_pdf", body := a }, [])

/-! ### Results rendering: marketing and insights sections -/

def keywordTagHtml (k : String) : String :=
  "<span class=\"keyword-tag\">" ++ k ++ "</span>"

def secondaryKeywordTagHtml (k : String) : String :=
  "<span class=\"keyword-tag secondary\">" ++ k ++ "</span>"

def marketingHeaderHtml : String :=
  "<div class=\"result-section\"><div class=\"result-section-header\">" ++
  "<i class=\"fas fa-bullhorn\"></i><h4>Estratégia de Marketing</h4></div>" ++
  "<div class=\"result-section-content\">"

def primaryKeywordsPre : String :=
  "<div class=\"expandable-section expanded\"><div class=\"expandable-header\">" ++
  "<div class=\"expandable-title\"><i class=\"fas fa-key\"></i>Palavras-Chave Primárias</div>" ++
  "<i class=\"fas fa-chevron-down expandable-icon\"></i></div>" ++
  "<div class=\"expandable-content\"><div class=\"keyword-tags\">"

def secondaryKeywordsPre : String :=
  "<div class=\"expandable-section\"><div class=\"expandable-header\">" ++
  "<div class=\"expandable-title\"><i class=\"fas fa-tags\"></i>Palavras-Chave Secundárias</div>" ++
  "<i class=\"fas fa-chevron-down expandable-icon\"></i></div>" ++
  "<div class=\"expandable-content\"><div class=\"keyword-tags\">"

def keywordsBlockPost : String := "</div></div></div>"

def marketingFooterHtml : String := "</div></div>"

/-- `buildMarketingSection`: the primary keywords are all rendered as tags,
the secondary keywords are rendered after `slice(0, 10)`; each block only
appears when its list is present and nonempty. -/
def buildMarketingSection (marketing : MarketingStrategy) : String :=
  marketingHeaderHtml ++
  (match marketing.palavras_primarias with
   | some ps =>
     if ps.length > 0 then
       primaryKeywordsPre ++ String.join (ps.map keywordTagHtml) ++ keywordsBlockPost
     else ""
   | none => "") ++
  (match marketing.palavras_secundarias with
   | some ss =>
     if ss.length > 0 then
       secondaryKeywordsPre ++ String.join ((ss.take 10).map secondaryKeywordTagHtml) ++
         keywordsBlockPost
     else ""
   | none => "") ++
  marketingFooterHtml

def insightsHeaderHtml : String :=
  "<div class=\"result-section\"><div class=\"result-section-header\">" ++
  "<i class=\"fas fa-lightbulb\"></i><h4>Insights Exclusivos</h4></div>" ++
  "<div class=\"result-section-content\"><div class=\"insights-showcase\">"

def insightsFooterHtml : String := "</div></div></div>"

def insightCardHtml (n : Nat) (text : String) : String :=
  "<div class=\"insight-card\"><div class=\"insight-number\">" ++ toString n ++
  "</div><div class=\"insight-content\">" ++ text ++ "</div></div>"

/-- `buildInsightsSection`: `insights.map((insight, index) => ...)` with the
card number rendered as `index + 1`. -/
def buildInsightsSection (insights : List String) : String :=
  insightsHeaderHtml ++
  String.join (insights.enum.map (fun p => insightCardHtml (p.1 + 1) p.2)) ++
  insightsFooterHtml

/-- Cards numbered `k`, `k+1`, ... for the given texts, in order (the
specification's reading of the insights rendering: 1-based numbering when
started at `k = 1`). -/
def numberedCards : Nat → List String → List String
  | _, [] => []
  | k, text :: rest => insightCardHtml k text :: numberedCards (k + 1) rest

/-! ### Auxiliary predicates used by the claims -/

/-- An optional form field that is absent or holds the empty string. -/
def isEmptyOpt : Option String → Bool
  | none => true
  | some s => decide (s = "")

/-- The upload attempt failed: falsy success flag, unparsable body, or a
thrown network error. -/
def isUploadFailure : UploadResponse → Bool
  | .json success _ _ _ => !(jsTruthy success)
  | .parseFailure _ => true
  | .networkFailure _ => true

/-- The empty UI state reached after `startNewAnalysis`. -/
def isFreshState (s : AppState) : Prop :=
  s.uploadedFiles = [] ∧ s.currentAnalysis = none ∧ s.resultsVisible = false ∧ s.form = emptyForm

/-! ## Helper lemmas -/

theorem lookup_filter_skip (p : String × JSValue → Bool) (k a : String) (v : JSValue)
    (l : List (String × JSValue)) (h : (k == a) = false) :
    (List.filter p ((a, v) :: l)).lookup k = (List.filter p l).lookup k := by
  cases hp : p (a, v)
  · simp [List.filter_cons, hp]
  · simp [List.filter_cons, hp, List.lookup, h]

theorem lookup_filter_hit (p : String × JSValue → Bool) (k a : String) (v : JSValue)
    (l : List (String × JSValue)) (hk : (k == a) = true) (hp : p (a, v) = true) :
    (List.filter p ((a, v) :: l)).lookup k = some v := by
  simp [List.filter_cons, hp, List.lookup, hk]

theorem lookup_filter_drop (p : String × JSValue → Bool) (k a : String) (v : JSValue)
    (l : List (String × JSValue)) (hp : p (a, v) = false) :
    (List.filter p ((a, v) :: l)).lookup k = (List.filter p l).lookup k := by
  simp [List.filter_cons, hp]

theorem isEmptyValue_optStr {o : Option String} (h : isEmptyOpt o = true) :
    isEmptyValue (optStr o) = true := by
  cases o with
  | none => rfl
  | some s =>
    simp only [isEmptyOpt, decide_eq_true_eq] at h
    simp [optStr, isEmptyValue, h]

theorem isEmptyValue_numField {o : Option String} (h : isEmptyOpt o = true) :
    isEmptyValue (numField o) = true := by
  cases o with
  | none => rfl
  | some s =>
    simp only [isEmptyOpt, decide_eq_true_eq] at h
    simp [numField, isEmptyValue, h]

theorem digitChar_inj_lt : ∀ a, a < 10 → ∀ b, b < 10 →
    Nat.digitChar a = Nat.digitChar b → a = b := by decide

theorem map_digitChar_inj : ∀ l₁ l₂ : List Nat, (∀ x ∈ l₁, x < 10) → (∀ x ∈ l₂, x < 10) →
    l₁.map Nat.digitChar = l₂.map Nat.digitChar → l₁ = l₂ := by
  intro l₁
  induction l₁ with
  | nil =>
    intro l₂ _ _ h
    cases l₂ with
    | nil => rfl
    | cons y ys => simp at h
  | cons x xs ih =>
    intro l₂ h₁ h₂ h
    cases l₂ with
    | nil => simp at h
    | cons y ys =>
      simp only [List.map_cons, List.cons.injEq] at h
      have hx : x < 10 := h₁ x (by simp)
      have hy : y < 10 := h₂ y (by simp)
      have hxy := digitChar_inj_lt x hx y hy h.1
      have hrest := ih ys (fun z hz => h₁ z (by simp [hz])) (fun z hz => h₂ z (by simp [hz])) h.2
      rw [hxy, hrest]

theorem natDecimal_inj (a b : Nat) (h : natDecimal a = natDecimal b) : a = b := by
  have digitsEq : ∀ n : Nat, n ≠ 0 →
      ∀ m : Nat, (Nat.digits 10 n).reverse.map Nat.digitChar =
        (Nat.digits 10 m).reverse.map Nat.digitChar → n = m := by
    intro n _ m hm
    have := map_digitChar_inj _ _
      (fun x hx => Nat.digits_lt_base (by norm_num) (List.mem_reverse.mp hx))
      (fun x hx => Nat.digits_lt_base (by norm_num) (List.mem_reverse.mp hx)) hm
    have hrev := List.reverse_injective this
    calc n = Nat.ofDigits 10 (Nat.digits 10 n) := (Nat.ofDigits_digits 10 n).symm
    _ = Nat.ofDigits 10 (Nat.digits 10 m) := by rw [hrev]
    _ = m := Nat.ofDigits_digits 10 m
  by_cases ha : a = 0 <;> by_cases hb : b = 0
  · rw [ha, hb]
  · exfalso
    rw [natDecimal, if_pos ha, natDecimal, if_neg hb] at h
    have hdata : (['0'] : List Char) = (Nat.digits 10 b).reverse.map Nat.digitChar :=
      congrArg String.data h
    obtain ⟨d, hd⟩ : ∃ d, (Nat.digits 10 b).reverse = [d] := by
      cases hrev : (Nat.digits 10 b).reverse with
      | nil => rw [hrev] at hdata; simp at hdata
      | cons c cs =>
        rw [hrev] at hdata
        cases cs with
        | nil => exact ⟨c, rfl⟩
        | cons c2 cs2 => simp at hdata
    rw [hd] at hdata
    simp only [List.map_cons, List.map_nil, List.cons.injEq] at hdata
    have hdigits : Nat.digits 10 b = [d] := by
      have := congrArg List.reverse hd
      simpa using this
    have hdlt : d < 10 := Nat.digits_lt_base (by norm_num) (by rw [hdigits]; simp)
    have hd0 : d = 0 := digitChar_inj_lt d hdlt 0 (by norm_num) hdata.1.symm
    have : b = Nat.ofDigits 10 (Nat.digits 10 b) := (Nat.ofDigits_digits 10 b).symm
    rw [hdigits, hd0] at this
    simp [Nat.ofDigits] at this
    exact hb this
  · exfalso
    rw [natDecimal, if_neg ha, natDecimal, if_pos hb] at h
    have hdata : (Nat.digits 10 a).reverse.map Nat.digitChar = (['0'] : List Char) :=
      congrArg String.data h
    obtain ⟨d, hd⟩ : ∃ d, (Nat.digits 10 a).reverse = [d] := by
      cases hrev : (Nat.digits 10 a).reverse with
      | nil => rw [hrev] at hdata; simp at hdata
      | cons c cs =>
        rw [hrev] at hdata
        cases cs with
        | nil => exact ⟨c, rfl⟩
        | cons c2 cs2 => simp at hdata
    rw [hd] at hdata
    simp only [List.map_cons, List.map_nil, List.cons.injEq] at hdata
    have hdigits : Nat.digits 10 a = [d] := by
      have := congrArg List.reverse hd
      simpa using this
    have hdlt : d < 10 := Nat.digits_lt_base (by norm_num) (by rw [hdigits]; simp)
    have hd0 : d = 0 := digitChar_inj_lt d hdlt 0 (by norm_num) hdata.1
    have : a = Nat.ofDigits 10 (Nat.digits 10 a) := (Nat.ofDigits_digits 10 a).symm
    rw [hdigits, hd0] at this
    simp [Nat.ofDigits] at this
    exact ha this
  · rw [natDecimal, if_neg ha, natDecimal, if_neg hb] at h
    exact digitsEq a ha b (congrArg String.data h)

theorem append_sep_inj {α : Type} (sep : α) :
    ∀ l₁ l₂ r₁ r₂ : List α, sep ∉ l₁ → sep ∉ l₂ →
      l₁ ++ sep :: r₁ = l₂ ++ sep :: r₂ → l₁ = l₂ ∧ r₁ = r₂ := by
  intro l₁
  induction l₁ with
  | nil =>
    intro l₂ r₁ r₂ _ h₂ h
    cases l₂ with
    | nil => simpa using h
    | cons y ys =>
      simp only [List.nil_append, List.cons_append, List.cons.injEq] at h
      exact absurd (h.1 ▸ List.mem_cons_self y ys) h₂
  | cons x xs ih =>
    intro l₂ r₁ r₂ h₁ h₂ h
    cases l₂ with
    | nil =>
      simp only [List.nil_append, List.cons_append, List.cons.injEq] at h
      exact absurd (h.1 ▸ List.mem_cons_self x xs) h₁
    | cons y ys =>
      simp only [List.cons_append, List.cons.injEq] at h
      obtain ⟨hxs, hr⟩ := ih ys r₁ r₂ (fun hm => h₁ (List.mem_cons_of_mem x hm))
        (fun hm => h₂ (List.mem_cons_of_mem y hm)) h.2
      exact ⟨by rw [h.1, hxs], hr⟩

theorem digitChar_ne_underscore : ∀ d, d < 10 → Nat.digitChar d ≠ '_' := by decide

theorem natDecimal_no_underscore (n : Nat) : '_' ∉ (natDecimal n).data := by
  intro hmem
  rw [natDecimal] at hmem
  by_cases hn : n = 0
  · rw [if_pos hn] at hmem
    exact absurd hmem (by decide)
  · rw [if_neg hn] at hmem
    obtain ⟨d, hd, hdc⟩ := List.mem_map.mp hmem
    exact digitChar_ne_underscore d
      (Nat.digits_lt_base (by norm_num) (List.mem_reverse.mp hd)) hdc

theorem generateSessionId_inj (ts₁ ts₂ : Nat) (r₁ r₂ : String)
    (h : generateSessionId ts₁ r₁ = generateSessionId ts₂ r₂) : ts₁ = ts₂ ∧ r₁ = r₂ := by
  have hd := congrArg String.data h
  simp only [generateSessionId, String.data_append, List.append_assoc] at hd
  have hd' := List.append_cancel_left hd
  rw [List.singleton_append, List.singleton_append] at hd'
  obtain ⟨hX, hR⟩ := append_sep_inj '_' _ _ _ _
    (natDecimal_no_underscore ts₁) (natDecimal_no_underscore ts₂) hd'
  exact ⟨natDecimal_inj ts₁ ts₂ (String.ext hX), String.ext hR⟩

theorem generateSessionId_ne_empty (ts : Nat) (r : String) : generateSessionId ts r ≠ "" := by
  intro h
  have := congrArg String.length h
  simp [generateSessionId, String.length_append] at this
  exact absurd this.1.1.1 (by decide)

theorem isEmptyOpt_cases {o : Option String} (h : isEmptyOpt o = true) :
    o = none ∨ o = some "" := by
  cases o with
  | none => exact Or.inl rfl
  | some s =>
    simp only [isEmptyOpt, decide_eq_true_eq] at h
    exact Or.inr (by rw [h])

theorem jsStrictEq_self {v : JSValue} (h : v ≠ JSValue.nan) : jsStrictEq v v = true := by
  cases v with
  | nan => exact absurd rfl h
  | null => rfl
  | undef => rfl
  | bool b => simp [jsStrictEq]
  | num q => simp [jsStrictEq]
  | inf n => simp [jsStrictEq]
  | str s => simp [jsStrictEq]

theorem jsOr_num_ne_nan (a : JSValue) (q : ℚ) : jsOr a (JSValue.num q) ≠ JSValue.nan := by
  rw [jsOr]
  by_cases ht : jsTruthy a = true
  · rw [if_pos ht]
    intro hv
    rw [hv] at ht
    exact absurd ht (by decide)
  · rw [if_neg ht]
    intro hv
    cases hv

theorem enumFrom_numberedCards (k : Nat) (l : List String) :
    (List.enumFrom k l).map (fun p => insightCardHtml (p.1 + 1) p.2) = numberedCards (k + 1) l := by
  induction l generalizing k with
  | nil => rfl
  | cons x xs ih =>
    simp [List.enumFrom, numberedCards, ih (k + 1)]

theorem numberedCards_length (k : Nat) (l : List String) :
    (numberedCards k l).length = l.length := by
  induction l generalizing k with
  | nil => rfl
  | cons x xs ih => simp [numberedCards, ih]

/-! ## Claims -/

/-- Claim C1, corrected form.  A numeric field (`preco`, `objetivo_receita`,
`orcamento_marketing`) holding a non-empty string that `parseFloat` cannot
parse is NOT omitted from the payload of `collectFormData`: the cleanup
loop only deletes `''` and `null`, so the field is kept with value `NaN`
(which JSON-serialises as `null`, not as an absent key). -/
theorem collectFormData_keeps_nan (sid : String) (form : FormState) (s : String) :
    (form.preco = some s → s ≠ "" → jsParseFloat s = JSValue.nan →
      (collectFormData sid form).lookup "preco" = some JSValue.nan) ∧
    (form.objetivo_receita = some s → s ≠ "" → jsParseFloat s = JSValue.nan →
      (collectFormData sid form).lookup "objetivo_receita" = some JSValue.nan) ∧
    (form.orcamento_marketing = some s → s ≠ "" → jsParseFloat s = JSValue.nan →
      (collectFormData sid form).lookup "orcamento_marketing" = some JSValue.nan) := by
  refine ⟨fun hf hne hnan => ?_, fun hf hne hnan => ?_, fun hf hne hnan => ?_⟩
  · simp only [collectFormData]
    rw [lookup_filter_skip _ _ _ _ _ (by decide), lookup_filter_skip _ _ _ _ _ (by decide),
        lookup_filter_skip _ _ _ _ _ (by decide)]
    rw [hf]
    have hv : numField (some s) = JSValue.nan := by
      rw [numField, if_neg hne, hnan]
    rw [hv, lookup_filter_hit _ _ _ _ _ (by decide) (by decide)]
  · simp only [collectFormData]
    rw [lookup_filter_skip _ _ _ _ _ (by decide), lookup_filter_skip _ _ _ _ _ (by decide),
        lookup_filter_skip _ _ _ _ _ (by decide), lookup_filter_skip _ _ _ _ _ (by decide),
        lookup_filter_skip _ _ _ _ _ (by decide)]
    rw [hf]
    have hv : numField (some s) = JSValue.nan := by
      rw [numField, if_neg hne, hnan]
    rw [hv, lookup_filter_hit _ _ _ _ _ (by decide) (by decide)]
  · simp only [collectFormData]
    rw [lookup_filter_skip _ _ _ _ _ (by decide), lookup_filter_skip _ _ _ _ _ (by decide),
        lookup_filter_skip _ _ _ _ _ (by decide), lookup_filter_skip _ _ _ _ _ (by decide),
        lookup_filter_skip _ _ _ _ _ (by decide), lookup_filter_skip _ _ _ _ _ (by decide)]
    rw [hf]
    have hv : numField (some s) = JSValue.nan := by
      rw [numField, if_neg hne, hnan]
    rw [hv, lookup_filter_hit _ _ _ _ _ (by decide) (by decide)]

/-- A form whose three numeric fields hold the unparsable string `"abc"`. -/
def c1Form : FormState :=
  { segmento := none, produto := none, preco := some "abc", publico := none,
    objetivo_receita := some "abc", orcamento_marketing := some "abc",
    prazo_lancamento := none, concorrentes := none, query := none, dados_adicionais := none }

/-- Claim C1 as stated is false: with `preco = "abc"` (non-empty, parsing to
`NaN`), the payload of `collectFormData` still contains the key `preco`. -/
theorem collectFormData_nan_counterexample :
    ("abc" : String) ≠ "" ∧ jsParseFloat "abc" = JSValue.nan ∧ c1Form.preco = some "abc" ∧
    (collectFormData "session_1_a" c1Form).lookup "preco" = some JSValue.nan := by
  decide

/-- Witness for the corrected claim C1 at the concrete form `c1Form`. -/
theorem collectFormData_keeps_nan_witness :
    c1Form.preco = some "abc" ∧ c1Form.objetivo_receita = some "abc" ∧
    c1Form.orcamento_marketing = some "abc" ∧ ("abc" : String) ≠ "" ∧
    jsParseFloat "abc" = JSValue.nan ∧
    (collectFormData "session_1_a" c1Form).lookup "preco" = some JSValue.nan ∧
    (collectFormData "session_1_a" c1Form).lookup "objetivo_receita" = some JSValue.nan ∧
    (collectFormData "session_1_a" c1Form).lookup "orcamento_marketing" = some JSValue.nan :=
  ⟨rfl, rfl, rfl, by decide, by decide,
   (collectFormData_keeps_nan "session_1_a" c1Form "abc").1 rfl (by decide) (by decide),
   (collectFormData_keeps_nan "session_1_a" c1Form "abc").2.1 rfl (by decide) (by decide),
   (collectFormData_keeps_nan "session_1_a" c1Form "abc").2.2 rfl (by decide) (by decide)⟩

/-- Claim C6: `downloadPDF` with no stored analysis shows an error
notification and issues no request to `/api/generate_pdf`. -/
theorem downloadPDF_requires_analysis :
    downloadPDF none = (none, [⟨NotificationKind.error, pdfMissingAnalysisError⟩]) := rfl

/-- Claim C9: a 2048-byte file is displayed as exactly "2 KB". -/
theorem formatFileSize_2048 : formatFileSize 2048 = "2 KB" := by decide

/-- Claim C10: whenever the upload fails (falsy success flag, unparsable
response body, or a thrown fetch error), `uploadFile` leaves the
`uploadedFiles` list exactly as it was. -/
theorem uploadFile_atomic_on_failure (f : FileInfo) (resp : UploadResponse) (now : ℚ)
    (files : List UploadedFile) (h : isUploadFailure resp = true) :
    (uploadFile f resp now files).1 = files := by
  cases resp with
  | json success ct aid err =>
    simp only [isUploadFailure, Bool.not_eq_true'] at h
    simp [uploadFile, h]
  | parseFailure msg => rfl
  | networkFailure msg => rfl

/-- Witness for C10: a falsy-success response leaves a one-element list intact. -/
theorem uploadFile_atomic_on_failure_witness :
    isUploadFailure (UploadResponse.json (JSValue.bool false) none JSValue.undef none) = true ∧
    (uploadFile ⟨"w.txt", 5⟩ (UploadResponse.json (JSValue.bool false) none JSValue.undef none) 7
      [⟨"old.txt", 1, some "text/plain", JSValue.str "id9"⟩]).1 =
      [⟨"old.txt", 1, some "text/plain", JSValue.str "id9"⟩] :=
  ⟨by decide,
   uploadFile_atomic_on_failure ⟨"w.txt", 5⟩
     (UploadResponse.json (JSValue.bool false) none JSValue.undef none) 7
     [⟨"old.txt", 1, some "text/plain", JSValue.str "id9"⟩] (by decide)⟩

/-- A pre-existing upload descriptor whose id collides with the next upload. -/
def c2File : UploadedFile :=
  { name := "a.txt", size := 3, type := some "text/plain", id := JSValue.num 1 }

/-- A successful upload response carrying the colliding attachment id. -/
def c2Resp : UploadResponse :=
  UploadResponse.json (JSValue.bool true) (some "text/plain") (JSValue.num 1) none

/-- Claim C2 as stated (for EVERY prior list) is false: when the server
returns an attachment id already present in the list, `removeFile` strips
the old descriptor together with the new one, so the list does not return
to its prior state even up to set equality. -/
theorem upload_remove_roundtrip_counterexample :
    jsTruthy (JSValue.bool true) = true ∧
    (uploadFile ⟨"a.txt", 3⟩ c2Resp 0 [c2File]).1 = [c2File, c2File] ∧
    removeFile (JSValue.num 1) (uploadFile ⟨"a.txt", 3⟩ c2Resp 0 [c2File]).1 = [] ∧
    c2File ∈ [c2File] ∧
    c2File ∉ removeFile (JSValue.num 1) (uploadFile ⟨"a.txt", 3⟩ c2Resp 0 [c2File]).1 := by
  decide

/-- Claim C2, corrected form: if no descriptor already in the list carries
the id the new descriptor gets (`attachment_id || Date.now()`), then a
successful `uploadFile` followed by `removeFile` with that id restores the
upload list exactly (hence also as a set). -/
theorem upload_remove_roundtrip_fresh (files : List UploadedFile) (f : FileInfo)
    (success : JSValue) (ct : Option String) (aid : JSValue) (err : Option String) (now : ℚ)
    (hsucc : jsTruthy success = true)
    (hfresh : ∀ e ∈ files, jsStrictEq e.id (jsOr aid (JSValue.num now)) = false) :
    removeFile (jsOr aid (JSValue.num now))
      (uploadFile f (UploadResponse.json success ct aid err) now files).1 = files := by
  simp only [uploadFile, hsucc, if_true]
  rw [removeFile, List.filter_append]
  have h1 : files.filter
      (fun file => !(jsStrictEq file.id (jsOr aid (JSValue.num now)))) = files :=
    List.filter_eq_self.mpr (fun e he => by rw [hfresh e he]; rfl)
  have h2 : jsStrictEq (jsOr aid (JSValue.num now)) (jsOr aid (JSValue.num now)) = true :=
    jsStrictEq_self (jsOr_num_ne_nan aid now)
  rw [h1]
  simp [List.filter_cons, h2]

/-- Witness for the corrected claim C2: a fresh server id round-trips. -/
theorem upload_remove_roundtrip_fresh_witness :
    jsTruthy (JSValue.bool true) = true ∧
    (∀ e ∈ [c2File], jsStrictEq e.id (jsOr (JSValue.str "att7") (JSValue.num 5)) = false) ∧
    removeFile (jsOr (JSValue.str "att7") (JSValue.num 5))
      (uploadFile ⟨"b.txt", 9⟩
        (UploadResponse.json (JSValue.bool true) (some "text/plain") (JSValue.str "att7") none)
        5 [c2File]).1 = [c2File] :=
  ⟨by decide, by decide,
   upload_remove_roundtrip_fresh [c2File] ⟨"b.txt", 9⟩ (JSValue.bool true) (some "text/plain")
     (JSValue.str "att7") none 5 (by decide) (by decide)⟩

/-- A concrete app state used to exercise `startNewAnalysis`. -/
def c4State : AppState :=
  { sessionId := "session_0_x",
    uploadedFiles := [⟨"a.txt", 3, some "text/plain", JSValue.num 1⟩],
    currentAnalysis := some {},
    resultsVisible := true,
    form := c1Form }

/-- Claim C4 as stated is false on the distinctness part: when the two
calls observe the same `Date.now()` timestamp and the same random suffix,
the two generated session ids coincide (the emptiness of the state does
hold after each call). -/
theorem startNewAnalysis_ids_counterexample :
    (startNewAnalysis 0 "abc" c4State).sessionId =
      (startNewAnalysis 0 "abc" (startNewAnalysis 0 "abc" c4State)).sessionId ∧
    isFreshState (startNewAnalysis 0 "abc" c4State) ∧
    isFreshState (startNewAnalysis 0 "abc" (startNewAnalysis 0 "abc" c4State)) :=
  ⟨rfl, ⟨rfl, rfl, rfl, rfl⟩, ⟨rfl, rfl, rfl, rfl⟩⟩

/-- Claim C4, corrected form: each of two consecutive `startNewAnalysis`
calls leaves the same empty state (empty upload list, no current analysis,
results hidden, reset form), and the two session ids differ whenever the
two calls observe different (timestamp, random-suffix) pairs: the
timestamp is rendered in digits only, so the first underscore after
`session_` splits the id unambiguously. -/
theorem startNewAnalysis_twice_fresh (ts₁ ts₂ : Nat) (r₁ r₂ : String) (s : AppState)
    (hne : (ts₁, r₁) ≠ (ts₂, r₂)) :
    isFreshState (startNewAnalysis ts₁ r₁ s) ∧
    isFreshState (startNewAnalysis ts₂ r₂ (startNewAnalysis ts₁ r₁ s)) ∧
    (startNewAnalysis ts₁ r₁ s).sessionId ≠
      (startNewAnalysis ts₂ r₂ (startNewAnalysis ts₁ r₁ s)).sessionId := by
  refine ⟨⟨rfl, rfl, rfl, rfl⟩, ⟨rfl, rfl, rfl, rfl⟩, fun h => ?_⟩
  obtain ⟨hts, hr⟩ := generateSessionId_inj ts₁ ts₂ r₁ r₂ h
  exact hne (by rw [hts, hr])

/-- Witness for the corrected claim C4, at the same timestamp with two
random suffixes of different lengths (as `substr(2, 9)` can produce). -/
theorem startNewAnalysis_twice_fresh_witness :
    ((1, "i") : Nat × String) ≠ (1, "abcdefghi") ∧
    (startNewAnalysis 1 "i" c4State).sessionId ≠
      (startNewAnalysis 1 "abcdefghi" (startNewAnalysis 1 "i" c4State)).sessionId :=
  ⟨by decide,
   (startNewAnalysis_twice_fresh 1 1 "i" "abcdefghi" c4State (by decide)).2.2⟩

/-- Claim C5: a submission with the segment field unset or empty issues no
request and shows the validation error; with the segment present and
nonempty, the submission always proceeds to the `/api/analyze` POST, no
matter what the other fields hold (so segment is the only field whose
absence aborts submission). -/
theorem segmento_required_validation (sid : String) (form : FormState) :
    (isEmptyOpt form.segmento = true →
      handleFormSubmit sid form = (none, [⟨NotificationKind.error, validationErrorMessage⟩])) ∧
    (∀ s : String, form.segmento = some s → s ≠ "" →
      handleFormSubmit sid form =
        (some (performAnalysisRequest (collectFormData sid form)), [])) := by
  constructor
  · intro h
    have hlook : (collectFormData sid form).lookup "segmento" = none := by
      simp only [collectFormData]
      rw [lookup_filter_skip _ _ _ _ _ (by decide)]
      rw [lookup_filter_drop _ _ _ _ _ (by simp [isEmptyValue_optStr h])]
      rw [lookup_filter_skip _ _ _ _ _ (by decide), lookup_filter_skip _ _ _ _ _ (by decide),
          lookup_filter_skip _ _ _ _ _ (by decide), lookup_filter_skip _ _ _ _ _ (by decide),
          lookup_filter_skip _ _ _ _ _ (by decide), lookup_filter_skip _ _ _ _ _ (by decide),
          lookup_filter_skip _ _ _ _ _ (by decide), lookup_filter_skip _ _ _ _ _ (by decide),
          lookup_filter_skip _ _ _ _ _ (by decide)]
      rfl
    have hv : validateFormData (collectFormData sid form) =
        (false, [⟨NotificationKind.error, validationErrorMessage⟩]) := by
      rw [validateFormData, getProp, hlook]
      rfl
    simp [handleFormSubmit, hv]
  · intro s hs hne
    have hlook : (collectFormData sid form).lookup "segmento" = some (JSValue.str s) := by
      simp only [collectFormData]
      rw [lookup_filter_skip _ _ _ _ _ (by decide)]
      rw [hs]
      rw [lookup_filter_hit _ _ _ _ _ (by decide) (by simp [optStr, isEmptyValue, hne])]
      rfl
    have hv : validateFormData (collectFormData sid form) = (true, []) := by
      rw [validateFormData, getProp, hlook]
      simp [jsTruthy, hne]
    simp [handleFormSubmit, hv]

/-- Witness for C5: the empty form is rejected with the validation error
and no request; the same form with only the segment set is submitted. -/
theorem segmento_required_validation_witness :
    isEmptyOpt emptyForm.segmento = true ∧
    handleFormSubmit "session_9_z" emptyForm =
      (none, [⟨NotificationKind.error, validationErrorMessage⟩]) ∧
    ({ emptyForm with segmento := some "fitness" } : FormState).segmento = some "fitness" ∧
    ("fitness" : String) ≠ "" ∧
    handleFormSubmit "session_9_z" { emptyForm with segmento := some "fitness" } =
      (some (performAnalysisRequest
        (collectFormData "session_9_z" { emptyForm with segmento := some "fitness" })), []) :=
  ⟨by decide, (segmento_required_validation "session_9_z" emptyForm).1 (by decide),
   rfl, by decide,
   (segmento_required_validation "session_9_z"
     { emptyForm with segmento := some "fitness" }).2 "fitness" rfl (by decide)⟩

/-- Claim C3: with the session id generated by `generateSessionId`, the
segment set to "fitness" and every other field absent or empty, the body
POSTed to `/api/analyze` holds exactly the keys `session_id` and
`segmento` (with `segmento = "fitness"`) and nothing else. -/
theorem submit_fitness_only_body (ts : Nat) (r : String) (form : FormState)
    (h1 : form.segmento = some "fitness")
    (h2 : isEmptyOpt form.produto = true) (h3 : isEmptyOpt form.preco = true)
    (h4 : isEmptyOpt form.publico = true) (h5 : isEmptyOpt form.objetivo_receita = true)
    (h6 : isEmptyOpt form.orcamento_marketing = true)
    (h7 : isEmptyOpt form.prazo_lancamento = true) (h8 : isEmptyOpt form.concorrentes = true)
    (h9 : isEmptyOpt form.query = true) (h10 : isEmptyOpt form.dados_adicionais = true) :
    handleFormSubmit (generateSessionId ts r) form =
      (some { url := "/api/analyze", method := "POST",
              body := [("session_id", JSValue.str (generateSessionId ts r)),
                       ("segmento", JSValue.str "fitness")] }, []) := by
  have hsid := generateSessionId_ne_empty ts r
  have e1 : isEmptyValue (JSValue.str (generateSessionId ts r)) = false := by
    simp [isEmptyValue, hsid]
  have e2 : isEmptyValue (optStr (some "fitness")) = false := rfl
  have hdata : collectFormData (generateSessionId ts r) form =
      [("session_id", JSValue.str (generateSessionId ts r)),
       ("segmento", JSValue.str "fitness")] := by
    simp only [collectFormData, h1, List.filter_cons, List.filter_nil,
      isEmptyValue_optStr h2, isEmptyValue_numField h3, isEmptyValue_optStr h4,
      isEmptyValue_numField h5, isEmptyValue_numField h6, isEmptyValue_optStr h7,
      isEmptyValue_optStr h8, isEmptyValue_optStr h9, isEmptyValue_optStr h10,
      e1, e2, Bool.not_true, Bool.not_false]
    simp [optStr]
  have hv : validateFormData
      [("session_id", JSValue.str (generateSessionId ts r)),
       ("segmento", JSValue.str "fitness")] = (true, []) := by
    rw [validateFormData, getProp]
    simp [List.lookup, jsTruthy]
  simp [handleFormSubmit, hdata, hv, performAnalysisRequest]

/-- Witness for C3 at a concrete timestamp, suffix and form. -/
theorem submit_fitness_only_body_witness :
    ({ emptyForm with segmento := some "fitness" } : FormState).segmento = some "fitness" ∧
    isEmptyOpt ({ emptyForm with segmento := some "fitness" } : FormState).produto = true ∧
    handleFormSubmit (generateSessionId 1 "abcdefghi")
        { emptyForm with segmento := some "fitness" } =
      (some { url := "/api/analyze", method := "POST",
              body := [("session_id", JSValue.str (generateSessionId 1 "abcdefghi")),
                       ("segmento", JSValue.str "fitness")] }, []) :=
  ⟨rfl, by decide,
   submit_fitness_only_body 1 "abcdefghi" { emptyForm with segmento := some "fitness" }
     rfl (by decide) (by decide) (by decide) (by decide) (by decide) (by decide) (by decide)
     (by decide) (by decide)⟩

/-- Claim C7: in the marketing section, the primary keyword list is
rendered in full (one tag per keyword, in order) while the secondary list
is rendered after `slice(0, 10)`; a secondary list of length at most 10 is
therefore rendered in full. -/
theorem buildMarketingSection_truncates_secondary (m : MarketingStrategy) (ps ss : List String)
    (hp : m.palavras_primarias = some ps) (hps : ps ≠ [])
    (hs : m.palavras_secundarias = some ss) (hss : ss ≠ []) :
    buildMarketingSection m =
      marketingHeaderHtml ++
        (primaryKeywordsPre ++ String.join (ps.map keywordTagHtml) ++ keywordsBlockPost) ++
        (secondaryKeywordsPre ++ String.join ((ss.take 10).map secondaryKeywordTagHtml) ++
          keywordsBlockPost) ++
      marketingFooterHtml ∧
    (ss.length ≤ 10 → ss.take 10 = ss) := by
  constructor
  · simp only [buildMarketingSection, hp, hs,
      if_pos (List.length_pos.mpr hps), if_pos (List.length_pos.mpr hss)]
  · intro hlen
    exact List.take_of_length_le hlen

/-- A marketing section with 2 primary and 12 secondary keywords. -/
def c7Marketing : MarketingStrategy :=
  { palavras_primarias := some ["k1", "k2"],
    palavras_secundarias :=
      some ["s1", "s2", "s3", "s4", "s5", "s6", "s7", "s8", "s9", "s10", "s11", "s12"] }

/-- Witness for C7: with 12 secondary keywords only the first 10 are rendered. -/
theorem buildMarketingSection_truncates_secondary_witness :
    c7Marketing.palavras_primarias = some ["k1", "k2"] ∧
    (["k1", "k2"] : List String) ≠ [] ∧
    c7Marketing.palavras_secundarias =
      some ["s1", "s2", "s3", "s4", "s5", "s6", "s7", "s8", "s9", "s10", "s11", "s12"] ∧
    (["s1", "s2", "s3", "s4", "s5", "s6", "s7", "s8", "s9", "s10", "s11", "s12"] :
      List String) ≠ [] ∧
    buildMarketingSection c7Marketing =
      marketingHeaderHtml ++
        (primaryKeywordsPre ++ String.join ((["k1", "k2"] : List String).map keywordTagHtml) ++
          keywordsBlockPost) ++
        (secondaryKeywordsPre ++
          String.join (((["s1", "s2", "s3", "s4", "s5", "s6", "s7", "s8", "s9", "s10", "s11",
            "s12"] : List String).take 10).map secondaryKeywordTagHtml) ++
          keywordsBlockPost) ++
      marketingFooterHtml ∧
    ((["s1", "s2", "s3", "s4", "s5", "s6", "s7", "s8", "s9", "s10", "s11", "s12"] :
      List String).length ≤ 10 →
      (["s1", "s2", "s3", "s4", "s5", "s6", "s7", "s8", "s9", "s10", "s11", "s12"] :
        List String).take 10 =
        ["s1", "s2", "s3", "s4", "s5", "s6", "s7", "s8", "s9", "s10", "s11", "s12"]) :=
  ⟨rfl, by decide, rfl, by decide,
   (buildMarketingSection_truncates_secondary c7Marketing _ _ rfl (by decide) rfl (by decide)).1,
   (buildMarketingSection_truncates_secondary c7Marketing _ _ rfl (by decide) rfl (by decide)).2⟩

/-- Claim C8: the insights section renders one card per insight, numbered
1..n in list order; in particular `["A", "B"]` yields two cards numbered
1 and 2. -/
theorem buildInsightsSection_numbered_cards :
    (∀ insights : List String,
      buildInsightsSection insights =
        insightsHeaderHtml ++ String.join (numberedCards 1 insights) ++ insightsFooterHtml ∧
      (numberedCards 1 insights).length = insights.length) ∧
    buildInsightsSection ["A", "B"] =
      insightsHeaderHtml ++ insightCardHtml 1 "A" ++ insightCardHtml 2 "B" ++
        insightsFooterHtml := by
  refine ⟨fun insights => ⟨?_, numberedCards_length 1 insights⟩, by rfl⟩
  rw [buildInsightsSection]
  rw [show List.enum insights = List.enumFrom 0 insights from rfl]
  rw [enumFrom_numberedCards 0 insights]
